import Mathlib

/-!
# GroupRouteEx: event dispatch of the EMSX group-route example client

A shallow embedding of `EMSXFullSet_C++/GroupRouteEx.cpp`.

The handlers are embedded as state-passing functions over `HState`, which holds
the log of everything the handler did to the outside world (`trace`) and the
shared `requestID` slot.  A C++ function that may throw a transport-library
`Exception` returns `HState × Except Exception α`: the state reached when the
exception was raised is kept, as stack unwinding does not undo effects.

The transport library is external.  Whether one of its calls throws is decided
by `Session.raises`, a function of the whole log up to and including the call,
so a theorem quantified over every `Session` covers every deterministic
behaviour of the library.  Element accessors of an incoming message
(`getElementAsInt32`, `getElementAsString`) are part of the message value: each
holds either the value or the exception the accessor throws.
-/

namespace EMSX

/-! ## Data model -/

/-- The blpapi `Exception`; the program only reads `description()`. -/
structure Exception where
  description : String
  deriving DecidableEq, Repr

deriving instance DecidableEq for Except

/-- The blpapi `CorrelationId`.  `CorrelationId()` builds the unset value. -/
inductive CorrelationId where
  | unset
  | value (n : Int)
  deriving DecidableEq, Repr

/-- The two locks of `SessionContext`. -/
inductive Mutex where
  | d_consoleLock
  | d_mutex
  deriving DecidableEq, Repr

/-- Modelled from the spec: the event categories of `Event::EventType` (the header
`blpapi_event.h` is not part of the sources); every category other than the
three named in the `switch` of `processEvent` takes the `default` branch. -/
inductive EventType where
  | SESSION_STATUS
  | SERVICE_STATUS
  | RESPONSE
  | OTHER
  deriving DecidableEq, Repr

/-- One entry of `EMSX_SUCCESS_ROUTES`, seen through the accessors used on it. -/
structure SuccessRoute where
  EMSX_SEQUENCE : Except Exception Int
  EMSX_ROUTE_ID : Except Exception Int
  deriving DecidableEq

/-- One entry of `EMSX_FAILED_ROUTES`, seen through the accessors used on it. -/
structure FailedRoute where
  EMSX_SEQUENCE : Except Exception Int
  ERROR_CODE : Except Exception Int
  ERROR_MESSAGE : Except Exception String
  deriving DecidableEq

/-- A blpapi `Message`, seen through the accessors the handlers use.
`none` for a list element means `hasElement` answers false. -/
structure Message where
  messageType : String
  ERROR_CODE : Except Exception Int
  ERROR_MESSAGE : Except Exception String
  EMSX_SUCCESS_ROUTES : Option (List SuccessRoute)
  EMSX_FAILED_ROUTES : Option (List FailedRoute)
  MESSAGE : Except Exception String
  deriving DecidableEq

/-- A blpapi `Event`: a category and the messages a `MessageIterator` yields. -/
structure Event where
  eventType : EventType
  messages : List Message
  deriving DecidableEq

def SESSION_STARTED : String := "SessionStarted"
def SESSION_STARTUP_FAILURE : String := "SessionStartupFailure"
def SERVICE_OPENED : String := "ServiceOpened"
def SERVICE_OPEN_FAILURE : String := "ServiceOpenFailure"
def ERROR_INFO : String := "ErrorInfo"
def GROUP_ROUTE_EX : String := "GroupRouteEx"

def d_service : String := "//blp/emapisvc_beta"

/-- One element of `EMSX_ROUTE_REF_ID_PAIRS`. -/
structure RouteRefPair where
  EMSX_ROUTE_REF_ID : Option String
  EMSX_SEQUENCE : Option Int
  deriving DecidableEq, Repr

/-- A scalar given to `Request::set`. -/
inductive Scalar where
  | int (n : Int)
  | str (s : String)
  deriving DecidableEq, Repr

/-- The outbound `Request`, restricted to the elements the program touches.
Every list is in insertion order. -/
structure Request where
  operation : String
  EMSX_SEQUENCE : List Int
  scalars : List (String × Scalar)
  EMSX_ROUTE_REF_ID_PAIRS : List RouteRefPair
  EMSX_STRATEGY_NAME : Option String
  EMSX_STRATEGY_FIELD_INDICATORS : List Int
  EMSX_STRATEGY_FIELDS : List String
  deriving DecidableEq, Repr

/-- The request `Service::createRequest` hands back: nothing is set yet. -/
def Request.create (operation : String) : Request :=
  { operation := operation, EMSX_SEQUENCE := [], scalars := [],
    EMSX_ROUTE_REF_ID_PAIRS := [], EMSX_STRATEGY_NAME := none,
    EMSX_STRATEGY_FIELD_INDICATORS := [], EMSX_STRATEGY_FIELDS := [] }

/-- One statement of the request population in `processServiceEvent`
(lines 150 to 258 of the source). -/
inductive ReqOp where
  | append (name : String) (n : Int)
  | setInt (name : String) (n : Int)
  | setStr (name : String) (s : String)
  | getElement (name : String)
  | appendRoute
  | setRouteRefId (route : Nat) (s : String)
  | setRouteSequence (route : Nat) (n : Int)
  | setStrategyName (s : String)
  | appendFieldData (s : String)
  | appendFieldIndicator (n : Int)
  deriving DecidableEq, Repr

/-- What a population statement does to the request. -/
def ReqOp.apply (r : Request) : ReqOp → Request
  | .append _ n => { r with EMSX_SEQUENCE := r.EMSX_SEQUENCE ++ [n] }
  | .setInt name n => { r with scalars := r.scalars ++ [(name, .int n)] }
  | .setStr name s => { r with scalars := r.scalars ++ [(name, .str s)] }
  | .getElement _ => r
  | .appendRoute =>
      { r with EMSX_ROUTE_REF_ID_PAIRS := r.EMSX_ROUTE_REF_ID_PAIRS ++ [⟨none, none⟩] }
  | .setRouteRefId i s =>
      { r with EMSX_ROUTE_REF_ID_PAIRS :=
          r.EMSX_ROUTE_REF_ID_PAIRS.modify (fun p => { p with EMSX_ROUTE_REF_ID := some s }) i }
  | .setRouteSequence i n =>
      { r with EMSX_ROUTE_REF_ID_PAIRS :=
          r.EMSX_ROUTE_REF_ID_PAIRS.modify (fun p => { p with EMSX_SEQUENCE := some n }) i }
  | .setStrategyName s => { r with EMSX_STRATEGY_NAME := some s }
  | .appendFieldData s => { r with EMSX_STRATEGY_FIELDS := r.EMSX_STRATEGY_FIELDS ++ [s] }
  | .appendFieldIndicator n =>
      { r with EMSX_STRATEGY_FIELD_INDICATORS := r.EMSX_STRATEGY_FIELD_INDICATORS ++ [n] }

/-- The population statements of `processServiceEvent`, in source order. -/
def requestOps : List ReqOp :=
  [ .append "EMSX_SEQUENCE" 3734835,
    .append "EMSX_SEQUENCE" 3734836,
    .append "EMSX_SEQUENCE" 3734837,
    .setInt "EMSX_AMOUNT_PERCENT" 100,
    .setStr "EMSX_BROKER" "BMTB",
    .setStr "EMSX_HAND_INSTRUCTION" "ANY",
    .setStr "EMSX_ORDER_TYPE" "MKT",
    .setStr "EMSX_TICKER" "IBM US Equity",
    .setStr "EMSX_TIF" "DAY",
    .getElement "EMSX_ROUTE_REF_ID_PAIRS",
    .appendRoute,
    .setRouteRefId 0 "MyRouteRef1",
    .setRouteSequence 0 3663920,
    .appendRoute,
    .setRouteRefId 1 "MyRouteRef2",
    .setRouteSequence 1 3663921,
    .appendRoute,
    .setRouteRefId 2 "MyRouteRef3",
    .setRouteSequence 2 3663922,
    .getElement "EMSX_STRATEGY_PARAMS",
    .setStrategyName "VWAP",
    .getElement "EMSX_STRATEGY_FIELD_INDICATORS",
    .getElement "EMSX_STRATEGY_FIELDS",
    .appendFieldData "09:30:00", .appendFieldIndicator 0,
    .appendFieldData "10:30:00", .appendFieldIndicator 0,
    .appendFieldData "", .appendFieldIndicator 1,
    .appendFieldData "", .appendFieldIndicator 1,
    .appendFieldData "", .appendFieldIndicator 1,
    .appendFieldData "", .appendFieldIndicator 1,
    .appendFieldData "", .appendFieldIndicator 1,
    .appendFieldData "", .appendFieldIndicator 1,
    .appendFieldData "", .appendFieldIndicator 1,
    .appendFieldData "", .appendFieldIndicator 1,
    .appendFieldData "", .appendFieldIndicator 1,
    .appendFieldData "", .appendFieldIndicator 1 ]

/-- A call into the transport library. -/
inductive LibCall where
  | startAsync
  | stop
  | openServiceAsync (name : String)
  | getService (name : String)
  | createRequest (operation : String)
  | populate (op : ReqOp)
  | sendRequest (request : Request) (correlationId : CorrelationId)
  deriving DecidableEq, Repr

/-- Everything the program does to the outside world. -/
inductive Effect where
  | acquire (m : Mutex)
  | release (m : Mutex)
  | write (text : String)
  | flush
  | message (msg : Message)
  | call (c : LibCall)
  | getline
  | setIsStopped (b : Bool)
  deriving DecidableEq

/-- The transport library as the program sees it through `Session *`.
`raises t` is the exception, if any, thrown by the library call that ends the
log `t`; `startAsyncResult` is what `startAsync()` returns; the two printers are
the stream insertion operators of `Message` and `Request`. -/
structure Session where
  raises : List Effect → Option Exception
  startAsyncResult : Bool
  printMessage : Message → String
  printRequest : Request → String

/-- State threaded through the handlers: the log so far and the file-level
`requestID` slot. -/
structure HState where
  trace : List Effect
  requestID : CorrelationId

/-- Append one effect to the log. -/
def HState.emit (st : HState) (e : Effect) : HState :=
  { st with trace := st.trace ++ [e] }

/-- What `~ConsoleOut` does with a buffer holding `text`. -/
def flushEffects (text : String) : List Effect :=
  [.acquire .d_consoleLock, .write text, .flush, .release .d_consoleLock]

/-- The statement `ConsoleOut(lock) << ... << std::endl;`: the temporary is
destroyed at the end of the statement, which flushes its buffer. -/
def consoleOut (text : String) (st : HState) : HState :=
  { st with trace := st.trace ++ flushEffects text }

/-- A call into the transport library: logged, then it returns or throws. -/
def libCall (session : Session) (c : LibCall) (st : HState) :
    HState × Except Exception Unit :=
  let st1 := st.emit (.call c)
  match session.raises st1.trace with
  | some e => (st1, .error e)
  | none => (st1, .ok ())

/-- How one pass through a `while (msgIter.next())` body ends. -/
inductive Flow where
  | next
  | ret (b : Bool)
  deriving DecidableEq, Repr

/-- The loop `while (msgIter.next()) { Message msg = msgIter.message(); body }`
followed by `return true;`. -/
def messageLoop (body : Message → HState → HState × Except Exception Flow) :
    List Message → HState → HState × Except Exception Bool
  | [], st => (st, .ok true)
  | msg :: rest, st =>
    match body msg (st.emit (.message msg)) with
    | (st1, .error e) => (st1, .error e)
    | (st1, .ok (.ret b)) => (st1, .ok b)
    | (st1, .ok .next) => messageLoop body rest st1

/-! ## `EMSXEventHandler` -/

/-- Loop body of `processSessionEvent`. -/
def sessionBody (session : Session) (msg : Message) (st : HState) :
    HState × Except Exception Flow :=
  if msg.messageType = SESSION_STARTED then
    match libCall session (.openServiceAsync d_service)
        (consoleOut "Session started...\n" st) with
    | (st1, .error e) => (st1, .error e)
    | (st1, .ok _) => (st1, .ok .next)
  else if msg.messageType = SESSION_STARTUP_FAILURE then
    (consoleOut "Session startup failed\n" st, .ok (.ret false))
  else
    (st, .ok .next)

def processSessionEvent (session : Session) (event : Event) (st : HState) :
    HState × Except Exception Bool :=
  messageLoop (sessionBody session) event.messages
    (consoleOut "Processing SESSION_EVENT\n" st)

/-- The population statements run one after the other on the request; each is
a library call and may throw. -/
def populate (session : Session) :
    List ReqOp → Request → HState → HState × Except Exception Request
  | [], r, st => (st, .ok r)
  | op :: ops, r, st =>
    match libCall session (.populate op) st with
    | (st1, .error e) => (st1, .error e)
    | (st1, .ok _) => populate session ops (op.apply r) st1

/-- Loop body of `processServiceEvent`. -/
def serviceBody (session : Session) (msg : Message) (st : HState) :
    HState × Except Exception Flow :=
  if msg.messageType = SERVICE_OPENED then
    match libCall session (.getService d_service)
        (consoleOut "Service opened...\n" st) with
    | (st1, .error e) => (st1, .error e)
    | (st1, .ok _) =>
    match libCall session (.createRequest "GroupRouteEx") st1 with
    | (st2, .error e) => (st2, .error e)
    | (st2, .ok _) =>
    match populate session requestOps (Request.create "GroupRouteEx") st2 with
    | (st3, .error e) => (st3, .error e)
    | (st3, .ok request) =>
      let st4 := consoleOut ("Request: " ++ session.printRequest request ++ "\n") st3
      let st5 : HState := { st4 with requestID := CorrelationId.unset }
      match libCall session (.sendRequest request st5.requestID) st5 with
      | (st6, .error e) => (st6, .error e)
      | (st6, .ok _) => (st6, .ok .next)
  else if msg.messageType = SERVICE_OPEN_FAILURE then
    (consoleOut "Error: Service failed to open\n" st, .ok (.ret false))
  else
    (st, .ok .next)

def processServiceEvent (session : Session) (event : Event) (st : HState) :
    HState × Except Exception Bool :=
  messageLoop (serviceBody session) event.messages
    (consoleOut "Processing SERVICE_EVENT\n" st)

/-- The `for` loop over the values of `EMSX_SUCCESS_ROUTES`. -/
def successLoop : List SuccessRoute → HState → HState × Except Exception Unit
  | [], st => (st, .ok ())
  | e :: rest, st =>
    match e.EMSX_SEQUENCE with
    | .error ex => (st, .error ex)
    | .ok emsx_sequence =>
    match e.EMSX_ROUTE_ID with
    | .error ex => (st, .error ex)
    | .ok emsx_route_id =>
      successLoop rest
        (consoleOut ("Success: " ++ toString emsx_sequence ++ ", "
          ++ toString emsx_route_id ++ "\n") st)

/-- The `for` loop over the values of `EMSX_FAILED_ROUTES`. -/
def failedLoop : List FailedRoute → HState → HState × Except Exception Unit
  | [], st => (st, .ok ())
  | e :: rest, st =>
    match e.EMSX_SEQUENCE with
    | .error ex => (st, .error ex)
    | .ok emsx_sequence =>
    match e.ERROR_CODE with
    | .error ex => (st, .error ex)
    | .ok error_code =>
    match e.ERROR_MESSAGE with
    | .error ex => (st, .error ex)
    | .ok error_message =>
      failedLoop rest
        (consoleOut ("Failed: " ++ toString emsx_sequence ++ ", "
          ++ toString error_code ++ ": " ++ error_message ++ "\n") st)

/-- The block `if (msg.hasElement("EMSX_SUCCESS_ROUTES")) { ... }` of the
`GROUP_ROUTE_EX` branch (lines 298 to 332); the test for `EMSX_FAILED_ROUTES`
sits inside it. -/
def routeLists (msg : Message) (st : HState) : HState × Except Exception Unit :=
  match msg.EMSX_SUCCESS_ROUTES with
  | none => (st, .ok ())
  | some success =>
    match successLoop success st with
    | (st1, .error ex) => (st1, .error ex)
    | (st1, .ok _) =>
      match msg.EMSX_FAILED_ROUTES with
      | none => (st1, .ok ())
      | some failed => failedLoop failed st1

/-- Loop body of `processResponseEvent`. -/
def responseBody (session : Session) (msg : Message) (st : HState) :
    HState × Except Exception Flow :=
  let st0 := consoleOut ("MESSAGE: " ++ session.printMessage msg ++ "\n") st
  if msg.messageType = ERROR_INFO then
    match msg.ERROR_CODE with
    | .error ex => (st0, .error ex)
    | .ok errorCode =>
    match msg.ERROR_MESSAGE with
    | .error ex => (st0, .error ex)
    | .ok errorMessage =>
      (consoleOut ("ERROR CODE: " ++ toString errorCode ++ "\tERROR MESSAGE: "
        ++ errorMessage ++ "\n") st0, .ok .next)
  else if msg.messageType = GROUP_ROUTE_EX then
    match routeLists msg st0 with
    | (st1, .error ex) => (st1, .error ex)
    | (st1, .ok _) =>
    match msg.MESSAGE with
    | .error ex => (st1, .error ex)
    | .ok message => (consoleOut ("MESSAGE:" ++ message ++ "\n") st1, .ok .next)
  else
    (st0, .ok .next)

def processResponseEvent (session : Session) (event : Event) (st : HState) :
    HState × Except Exception Bool :=
  messageLoop (responseBody session) event.messages
    (consoleOut "Processing RESPONSE_EVENT\n" st)

/-- Loop body of `processMiscEvents`. -/
def miscBody (session : Session) (msg : Message) (st : HState) :
    HState × Except Exception Flow :=
  (consoleOut (msg.messageType ++ "\n" ++ session.printMessage msg ++ "\n") st, .ok .next)

def processMiscEvents (session : Session) (event : Event) (st : HState) :
    HState × Except Exception Bool :=
  messageLoop (miscBody session) event.messages
    (consoleOut "Processing UNHANDLED event\n" st)

/-- A block `{ MutexGuard guard(&d_context_p->d_mutex); return handler(...); }`:
the guard is released when the block is left, by `return` or by an exception. -/
def guarded (handler : HState → HState × Except Exception Bool) (st : HState) :
    HState × Except Exception Bool :=
  match handler (st.emit (.acquire .d_mutex)) with
  | (st1, r) => (st1.emit (.release .d_mutex), r)

/-- The `switch` inside the `try` block of `processEvent`. -/
def dispatch (session : Session) (event : Event) (st : HState) :
    HState × Except Exception Bool :=
  match event.eventType with
  | .SESSION_STATUS => guarded (processSessionEvent session event) st
  | .SERVICE_STATUS => guarded (processServiceEvent session event) st
  | .RESPONSE => guarded (processResponseEvent session event) st
  | .OTHER => processMiscEvents session event st

/-- The dispatch entry point: `try { switch ... } catch (Exception &e) { log }
return false;`.  It starts from an empty log and the current `requestID`. -/
def processEvent (session : Session) (event : Event) (requestID : CorrelationId) :
    HState × Except Exception Bool :=
  match dispatch session event ⟨[], requestID⟩ with
  | (st, .ok b) => (st, .ok b)
  | (st, .error e) =>
    (consoleOut ("Library Exception !!!" ++ e.description ++ "\n") st, .ok false)

/-! ## `GroupRouteEx` -/

/-- State of `GroupRouteEx::run`: the log and `d_context.d_isStopped`. -/
structure RunState where
  trace : List Effect
  d_isStopped : Bool

/-- A library call made by the controller. -/
def runCall (session : Session) (c : LibCall) (st : RunState) :
    RunState × Except Exception Unit :=
  let st1 : RunState := { st with trace := st.trace ++ [.call c] }
  match session.raises st1.trace with
  | some e => (st1, .error e)
  | none => (st1, .ok ())

/-- The statement `ConsoleOut(&d_context.d_consoleLock) << ...;` in the controller. -/
def runOut (text : String) (st : RunState) : RunState :=
  { st with trace := st.trace ++ flushEffects text }

def serverHost : String := "localhost"
def serverPort : Nat := 8194

/-- The function `createSession`: what `startAsync()` returns is dropped and the
function ends with `return true;`. -/
def createSession (session : Session) (st : RunState) :
    RunState × Except Exception Bool :=
  match runCall session .startAsync
      (runOut ("Connecting to " ++ serverHost ++ ":" ++ toString serverPort ++ "\n") st) with
  | (st1, .error e) => (st1, .error e)
  | (st1, .ok _) => (st1, .ok true)

/-- The function `run`. -/
def run (session : Session) : RunState × Except Exception Unit :=
  match createSession session ⟨[], false⟩ with
  | (st1, .error e) => (st1, .error e)
  | (st1, .ok false) => (st1, .ok ())
  | (st1, .ok true) =>
    let st2 := runOut "\nPress ENTER to quit\n" st1
    let st3 : RunState := { st2 with trace := st2.trace ++ [.getline] }
    let st4 : RunState :=
      { trace := st3.trace ++ [.acquire .d_mutex, .setIsStopped true, .release .d_mutex],
        d_isStopped := true }
    match runCall session .stop st4 with
    | (st5, .error e) => (st5, .error e)
    | (st5, .ok _) => (runOut "\nExiting...\n" st5, .ok ())

/-! ## Observations on a log -/

/-- The texts written to the output stream, in order. -/
def output (t : List Effect) : List String :=
  t.filterMap fun e => match e with
    | .write s => some s
    | _ => none

/-- The service names passed to `openServiceAsync`, in order. -/
def openServiceCalls (t : List Effect) : List String :=
  t.filterMap fun e => match e with
    | .call (.openServiceAsync n) => some n
    | _ => none

/-- The arguments of the `sendRequest` calls, in order. -/
def sendRequestCalls (t : List Effect) : List (Request × CorrelationId) :=
  t.filterMap fun e => match e with
    | .call (.sendRequest r c) => some (r, c)
    | _ => none

/-- The operation names passed to `createRequest`, in order. -/
def createRequestCalls (t : List Effect) : List String :=
  t.filterMap fun e => match e with
    | .call (.createRequest n) => some n
    | _ => none

/-- The messages fetched from the iterator, in order. -/
def visited (t : List Effect) : List Message :=
  t.filterMap fun e => match e with
    | .message m => some m
    | _ => none

/-- The actions on the dispatch lock `d_mutex`, in order. -/
def dispatchLockActions (t : List Effect) : List Effect :=
  t.filter fun e => decide (e = .acquire .d_mutex ∨ e = .release .d_mutex)

/-- A session whose library calls never throw. -/
def quietSession : Session :=
  { raises := fun _ => none, startAsyncResult := true,
    printMessage := fun m => m.messageType, printRequest := fun r => r.operation }

/-- A message of the given type with no readable element. -/
def plainMessage (ty : String) : Message :=
  { messageType := ty,
    ERROR_CODE := .error ⟨"ERROR_CODE not found"⟩,
    ERROR_MESSAGE := .error ⟨"ERROR_MESSAGE not found"⟩,
    EMSX_SUCCESS_ROUTES := none, EMSX_FAILED_ROUTES := none,
    MESSAGE := .error ⟨"MESSAGE not found"⟩ }

/-- The exception, if any, that leaves the `try` block of `processEvent`. -/
def raisedBy (session : Session) (event : Event) (requestID : CorrelationId) :
    Option Exception :=
  match (dispatch session event ⟨[], requestID⟩).2 with
  | .error e => some e
  | .ok _ => none

/-- The handler that the `switch` of `processEvent` selects for an event. -/
def categoryHandler (session : Session) (event : Event) :
    HState → HState × Except Exception Bool :=
  match event.eventType with
  | .SESSION_STATUS => processSessionEvent session event
  | .SERVICE_STATUS => processServiceEvent session event
  | .RESPONSE => processResponseEvent session event
  | .OTHER => processMiscEvents session event

/-- The request the population statements produce when none of them throws. -/
def groupRouteExRequest : Request :=
  requestOps.foldl ReqOp.apply (Request.create "GroupRouteEx")

/-- The message type on which the handler of a category leaves its loop early. -/
def stopsAt : EventType → Message → Bool
  | .SESSION_STATUS, m => decide (m.messageType = SESSION_STARTUP_FAILURE)
  | .SERVICE_STATUS, m => decide (m.messageType = SERVICE_OPEN_FAILURE)
  | _, _ => false

/-- An effect is anything but a `sendRequest` call with a request other than the
fully populated one or a correlation id other than a fresh `CorrelationId()`. -/
def SendsBuiltRequest (e : Effect) : Prop :=
  ∀ r cid, e = .call (.sendRequest r cid) → r = groupRouteExRequest ∧ cid = .unset

/-- The number of `SessionStarted` messages that come before the first
`SessionStartupFailure` message of a batch. -/
def startedBeforeFailure (msgs : List Message) : Nat :=
  (msgs.takeWhile fun m => decide (m.messageType ≠ SESSION_STARTUP_FAILURE)).countP
    fun m => decide (m.messageType = SESSION_STARTED)

/-- Where a log stands with respect to the console lock. -/
inductive ConsolePhase where
  | free
  | held
  | written
  | flushed
  deriving DecidableEq, Repr

/-- One effect seen by the console-lock discipline: the lock is taken, one
buffer is written, the stream is flushed, the lock is given back, with nothing
in between; writes and flushes happen only inside. -/
def consoleStep : ConsolePhase → Effect → Option ConsolePhase
  | .free, .acquire .d_consoleLock => some .held
  | .held, .write _ => some .written
  | .written, .flush => some .flushed
  | .flushed, .release .d_consoleLock => some .free
  | _, .acquire .d_consoleLock => none
  | _, .release .d_consoleLock => none
  | _, .write _ => none
  | _, .flush => none
  | .free, _ => some .free
  | _, _ => none

/-- Run the console-lock discipline over a log. -/
def consoleRun : ConsolePhase → List Effect → Option ConsolePhase
  | p, [] => some p
  | p, e :: t =>
    match consoleStep p e with
    | none => none
    | some q => consoleRun q t

/-- The console lock is held only around single buffer flushes, and is free
at the end of the log. -/
def ConsoleLockOk (t : List Effect) : Prop :=
  consoleRun .free t = some .free

/-- What a loop body can do: write a line through `ConsoleOut`, or call the library. -/
inductive Step where
  | out (text : String)
  | call (c : LibCall)

/-- The effects of a sequence of body steps. -/
def stepEffects : List Step → List Effect
  | [] => []
  | .out s :: rest => flushEffects s ++ stepEffects rest
  | .call c :: rest => .call c :: stepEffects rest

/-- The log of `st1` extends the log of `st` by body steps only. -/
def BodyExt (st st1 : HState) : Prop :=
  ∃ steps : List Step, st1.trace = st.trace ++ stepEffects steps

/-- The group-route result of the end-to-end scenario: two routed orders, one
rejected. -/
def scenarioMessage : Message :=
  { plainMessage GROUP_ROUTE_EX with
    EMSX_SUCCESS_ROUTES := some [⟨.ok 3734835, .ok 101⟩, ⟨.ok 3734836, .ok 102⟩],
    EMSX_FAILED_ROUTES := some [⟨.ok 3734837, .ok 12, .ok "broker rejected"⟩],
    MESSAGE := .ok "done" }

/-- A response batch whose second message is an `ErrorInfo` without a readable
`ERROR_CODE`: the accessor throws while the batch is being processed. -/
def brokenBatch : Event :=
  ⟨.RESPONSE, [scenarioMessage, plainMessage ERROR_INFO]⟩

/-- A group-route result in which every route failed: there is no
`EMSX_SUCCESS_ROUTES` element, and `EMSX_FAILED_ROUTES` has one entry. -/
def allFailedMessage : Message :=
  { plainMessage GROUP_ROUTE_EX with
    EMSX_SUCCESS_ROUTES := none,
    EMSX_FAILED_ROUTES := some [⟨.ok 3734837, .ok 12, .ok "broker rejected"⟩],
    MESSAGE := .ok "done" }

/-- The message `allFailedMessage` with an empty `EMSX_SUCCESS_ROUTES` list added. -/
def allFailedEmptySuccessMessage : Message :=
  { allFailedMessage with EMSX_SUCCESS_ROUTES := some [] }

/-- A session batch whose failure message comes first. -/
def failureFirstBatch : Event :=
  ⟨.SESSION_STATUS, [plainMessage SESSION_STARTUP_FAILURE, plainMessage SESSION_STARTED]⟩

/-- A session batch whose failure message comes after a `SessionStarted` message. -/
def startedThenFailureBatch : Event :=
  ⟨.SESSION_STATUS, [plainMessage SESSION_STARTED, plainMessage SESSION_STARTUP_FAILURE]⟩

/-- A session batch with exactly one `SessionStarted` message and no failure. -/
def startedBatch : Event :=
  ⟨.SESSION_STATUS, [plainMessage SESSION_STARTED]⟩

/-- A session whose `startAsync()` reports failure; no call throws. -/
def failedStartSession : Session :=
  { quietSession with startAsyncResult := false }

/-- A session whose `getService` throws. -/
def noServiceSession : Session :=
  { quietSession with
    raises := fun t => match t.getLast? with
      | some (.call (.getService _)) => some ⟨"service not open"⟩
      | _ => none }

/-! ## What each message type calls for

The definitions of this section do not use the handlers above: they say, message
type by message type, what handling one message consists of, and are compared
with the handlers in the theorems. -/

/-- The fully populated request, written out. -/
def populatedRequest : Request :=
  { operation := "GroupRouteEx",
    EMSX_SEQUENCE := [3734835, 3734836, 3734837],
    scalars := [("EMSX_AMOUNT_PERCENT", .int 100), ("EMSX_BROKER", .str "BMTB"),
      ("EMSX_HAND_INSTRUCTION", .str "ANY"), ("EMSX_ORDER_TYPE", .str "MKT"),
      ("EMSX_TICKER", .str "IBM US Equity"), ("EMSX_TIF", .str "DAY")],
    EMSX_ROUTE_REF_ID_PAIRS := [⟨some "MyRouteRef1", some 3663920⟩,
      ⟨some "MyRouteRef2", some 3663921⟩, ⟨some "MyRouteRef3", some 3663922⟩],
    EMSX_STRATEGY_NAME := some "VWAP",
    EMSX_STRATEGY_FIELD_INDICATORS := [0, 0, 1, 1, 1, 1, 1, 1, 1, 1, 1, 1],
    EMSX_STRATEGY_FIELDS := ["09:30:00", "10:30:00", "", "", "", "", "", "", "", "", "", ""] }

theorem output_append (a b : List Effect) : output (a ++ b) = output a ++ output b := by
  simp [output]

theorem output_nil : output [] = [] := rfl

theorem output_cons (e : Effect) (t : List Effect) :
    output (e :: t) = (match e with
      | .write s => [s]
      | _ => []) ++ output t := by
  cases e <;> simp [output]

theorem output_flushEffects (s : String) : output (flushEffects s) = [s] := by
  simp [output, flushEffects]

/-! ## The loops over the route lists -/

theorem successLoop_ok (S : List (Int × Int)) (st : HState) :
    successLoop (S.map fun p => ⟨.ok p.1, .ok p.2⟩) st =
      (⟨st.trace ++ (S.map fun p => flushEffects
          ("Success: " ++ toString p.1 ++ ", " ++ toString p.2 ++ "\n")).flatten,
        st.requestID⟩, .ok ()) := by
  induction S generalizing st with
  | nil => simp [successLoop]
  | cons p S ih => simp [successLoop, ih, consoleOut]

theorem failedLoop_ok (F : List (Int × Int × String)) (st : HState) :
    failedLoop (F.map fun p => ⟨.ok p.1, .ok p.2.1, .ok p.2.2⟩) st =
      (⟨st.trace ++ (F.map fun p => flushEffects
          ("Failed: " ++ toString p.1 ++ ", " ++ toString p.2.1 ++ ": " ++ p.2.2 ++ "\n")).flatten,
        st.requestID⟩, .ok ()) := by
  induction F generalizing st with
  | nil => simp [failedLoop]
  | cons p F ih => simp [failedLoop, ih, consoleOut]

theorem output_join_flushEffects {α : Type} (f : α → String) (l : List α) :
    output (l.map fun a => flushEffects (f a)).flatten = l.map f := by
  induction l with
  | nil => simp [output]
  | cons a l ih => simp [output_append, output_flushEffects, ih]

/-! ## Loop bodies only extend the log, by console lines and library calls -/

theorem stepEffects_append (a b : List Step) :
    stepEffects (a ++ b) = stepEffects a ++ stepEffects b := by
  induction a with
  | nil => simp [stepEffects]
  | cons s a ih => cases s <;> simp [stepEffects, ih]

theorem BodyExt.refl (st : HState) : BodyExt st st :=
  ⟨[], by simp [stepEffects]⟩

theorem BodyExt.trans {a b c : HState} (h1 : BodyExt a b) (h2 : BodyExt b c) :
    BodyExt a c := by
  obtain ⟨s1, e1⟩ := h1
  obtain ⟨s2, e2⟩ := h2
  exact ⟨s1 ++ s2, by rw [e2, e1, stepEffects_append, List.append_assoc]⟩

theorem BodyExt.grows {a b : HState} (h : BodyExt a b) : a.trace <+: b.trace := by
  obtain ⟨s, e⟩ := h
  exact ⟨stepEffects s, e.symm⟩

theorem consoleOut_ext (text : String) (st : HState) : BodyExt st (consoleOut text st) :=
  ⟨[.out text], by simp [stepEffects, consoleOut]⟩

theorem libCall_ext (session : Session) (c : LibCall) (st : HState) :
    BodyExt st (libCall session c st).1 := by
  unfold libCall
  dsimp only
  split <;> exact ⟨[.call c], by simp [stepEffects, HState.emit]⟩

theorem populate_ext (session : Session) (ops : List ReqOp) (r : Request) (st : HState) :
    BodyExt st (populate session ops r st).1 := by
  induction ops generalizing r st with
  | nil => exact BodyExt.refl st
  | cons op ops ih =>
    have h := libCall_ext session (.populate op) st
    unfold populate
    split
    · next st1 e heq => rw [heq] at h; exact h
    · next st1 u heq =>
      rw [heq] at h
      exact h.trans (ih _ st1)

theorem successLoop_ext (l : List SuccessRoute) (st : HState) :
    BodyExt st (successLoop l st).1 := by
  induction l generalizing st with
  | nil => exact BodyExt.refl st
  | cons e l ih =>
    unfold successLoop
    split
    · exact BodyExt.refl st
    · split
      · exact BodyExt.refl st
      · exact (consoleOut_ext _ st).trans (ih _)

theorem failedLoop_ext (l : List FailedRoute) (st : HState) :
    BodyExt st (failedLoop l st).1 := by
  induction l generalizing st with
  | nil => exact BodyExt.refl st
  | cons e l ih =>
    unfold failedLoop
    split
    · exact BodyExt.refl st
    · split
      · exact BodyExt.refl st
      · split
        · exact BodyExt.refl st
        · exact (consoleOut_ext _ st).trans (ih _)

theorem routeLists_ext (msg : Message) (st : HState) :
    BodyExt st (routeLists msg st).1 := by
  unfold routeLists
  split
  · exact BodyExt.refl st
  · next success _ =>
    have h := successLoop_ext success st
    split
    · next st1 ex heq => rw [heq] at h; exact h
    · next st1 u heq =>
      rw [heq] at h
      split
      · exact h
      · exact h.trans (failedLoop_ext _ st1)

theorem sessionBody_ext (session : Session) (msg : Message) (st : HState) :
    BodyExt st (sessionBody session msg st).1 := by
  unfold sessionBody
  split
  · have h := (consoleOut_ext "Session started...\n" st).trans
      (libCall_ext session (.openServiceAsync d_service) _)
    split
    · next st1 e heq => rw [heq] at h; exact h
    · next st1 u heq => rw [heq] at h; exact h
  · split
    · exact consoleOut_ext _ st
    · exact BodyExt.refl st

theorem serviceBody_ext (session : Session) (msg : Message) (st : HState) :
    BodyExt st (serviceBody session msg st).1 := by
  unfold serviceBody
  split
  · have h1 := (consoleOut_ext "Service opened...\n" st).trans
      (libCall_ext session (.getService d_service) _)
    split
    · next st1 e heq => rw [heq] at h1; exact h1
    · next st1 u heq =>
      rw [heq] at h1
      have h2 := h1.trans (libCall_ext session (.createRequest "GroupRouteEx") st1)
      split
      · next st2 e heq2 => rw [heq2] at h2; exact h2
      · next st2 u2 heq2 =>
        rw [heq2] at h2
        have h3 := h2.trans
          (populate_ext session requestOps (Request.create "GroupRouteEx") st2)
        split
        · next st3 e heq3 => rw [heq3] at h3; exact h3
        · next st3 request heq3 =>
          rw [heq3] at h3
          have h4 : BodyExt st
              ({ consoleOut ("Request: " ++ session.printRequest request ++ "\n") st3 with
                  requestID := CorrelationId.unset } : HState) :=
            h3.trans ⟨[.out ("Request: " ++ session.printRequest request ++ "\n")],
              by simp [stepEffects, consoleOut]⟩
          have h5 := h4.trans (libCall_ext session
            (.sendRequest request CorrelationId.unset) _)
          dsimp only
          split
          · next st6 e heq6 => rw [heq6] at h5; exact h5
          · next st6 u6 heq6 => rw [heq6] at h5; exact h5
  · split
    · exact consoleOut_ext _ st
    · exact BodyExt.refl st

theorem responseBody_ext (session : Session) (msg : Message) (st : HState) :
    BodyExt st (responseBody session msg st).1 := by
  have h0 := consoleOut_ext ("MESSAGE: " ++ session.printMessage msg ++ "\n") st
  unfold responseBody
  dsimp only
  split
  · split
    · exact h0
    · split
      · exact h0
      · exact h0.trans (consoleOut_ext _ _)
  · split
    · have h1 := h0.trans (routeLists_ext msg _)
      split
      · next st1 ex heq => rw [heq] at h1; exact h1
      · next st1 u heq =>
        rw [heq] at h1
        split
        · exact h1
        · exact h1.trans (consoleOut_ext _ _)
    · exact h0

theorem miscBody_ext (session : Session) (msg : Message) (st : HState) :
    BodyExt st (miscBody session msg st).1 :=
  consoleOut_ext _ st

/-! ## What body steps look like to each observation -/

theorem dispatchLockActions_append (a b : List Effect) :
    dispatchLockActions (a ++ b) = dispatchLockActions a ++ dispatchLockActions b := by
  simp [dispatchLockActions]

theorem dispatchLockActions_stepEffects (steps : List Step) :
    dispatchLockActions (stepEffects steps) = [] := by
  induction steps with
  | nil => rfl
  | cons s steps ih =>
    cases s with
    | out text =>
      rw [stepEffects, dispatchLockActions_append, ih]
      simp [dispatchLockActions, flushEffects]
    | call c =>
      have h : stepEffects (.call c :: steps) = [.call c] ++ stepEffects steps := rfl
      rw [h, dispatchLockActions_append, ih]
      simp [dispatchLockActions]

theorem visited_append (a b : List Effect) : visited (a ++ b) = visited a ++ visited b := by
  simp [visited]

theorem visited_stepEffects (steps : List Step) : visited (stepEffects steps) = [] := by
  induction steps with
  | nil => rfl
  | cons s steps ih =>
    cases s with
    | out text =>
      rw [stepEffects, visited_append, ih]
      simp [visited, flushEffects]
    | call c =>
      have h : stepEffects (.call c :: steps) = [.call c] ++ stepEffects steps := rfl
      rw [h, visited_append, ih]
      simp [visited]

theorem consoleRun_append (p : ConsolePhase) (a b : List Effect) :
    consoleRun p (a ++ b) = (consoleRun p a).bind fun q => consoleRun q b := by
  induction a generalizing p with
  | nil => simp [consoleRun]
  | cons e a ih =>
    simp only [List.cons_append, consoleRun]
    cases consoleStep p e with
    | none => simp
    | some q => simpa using ih q

theorem consoleRun_stepEffects (steps : List Step) :
    consoleRun .free (stepEffects steps) = some .free := by
  induction steps with
  | nil => rfl
  | cons s steps ih =>
    cases s with
    | out text =>
      rw [stepEffects, consoleRun_append]
      simpa [flushEffects, consoleRun, consoleStep] using ih
    | call c => simpa [stepEffects, consoleRun, consoleStep] using ih

theorem ConsoleLockOk.append {a b : List Effect} (ha : ConsoleLockOk a)
    (hb : ConsoleLockOk b) : ConsoleLockOk (a ++ b) := by
  unfold ConsoleLockOk at *
  rw [consoleRun_append, ha]
  simpa using hb

theorem ConsoleLockOk.single_message (m : Message) : ConsoleLockOk [.message m] := by
  simp [ConsoleLockOk, consoleRun, consoleStep]

theorem ConsoleLockOk.single_lock_action (e : Effect)
    (h : e = .acquire .d_mutex ∨ e = .release .d_mutex) : ConsoleLockOk [e] := by
  rcases h with h | h <;> subst h <;> simp [ConsoleLockOk, consoleRun, consoleStep]

theorem BodyExt.consoleLockOk {a b : HState} (h : BodyExt a b)
    (ha : ConsoleLockOk a.trace) : ConsoleLockOk b.trace := by
  obtain ⟨s, e⟩ := h
  rw [e]
  exact ha.append (consoleRun_stepEffects s)

theorem BodyExt.dispatchLockActions {a b : HState} (h : BodyExt a b) :
    dispatchLockActions b.trace = dispatchLockActions a.trace := by
  obtain ⟨s, e⟩ := h
  rw [e, dispatchLockActions_append, dispatchLockActions_stepEffects, List.append_nil]

theorem BodyExt.visited {a b : HState} (h : BodyExt a b) :
    visited b.trace = visited a.trace := by
  obtain ⟨s, e⟩ := h
  rw [e, visited_append, visited_stepEffects, List.append_nil]

/-! ## The message loop -/

section Loop

variable {body : Message → HState → HState × Except Exception Flow}

theorem messageLoop_grows (hb : ∀ m st, BodyExt st (body m st).1)
    (msgs : List Message) (st : HState) :
    st.trace <+: (messageLoop body msgs st).1.trace := by
  induction msgs generalizing st with
  | nil => exact List.prefix_rfl
  | cons m rest ih =>
    have h0 : st.trace <+: (st.emit (.message m)).trace := List.prefix_append _ _
    have h1 := h0.trans (hb m (st.emit (.message m))).grows
    unfold messageLoop
    split
    · next st1 e heq => rw [heq] at h1; exact h1
    · next st1 b heq => rw [heq] at h1; exact h1
    · next st1 heq => rw [heq] at h1; exact h1.trans (ih st1)

theorem messageLoop_dispatchLockActions (hb : ∀ m st, BodyExt st (body m st).1)
    (msgs : List Message) (st : HState) :
    dispatchLockActions (messageLoop body msgs st).1.trace = dispatchLockActions st.trace := by
  induction msgs generalizing st with
  | nil => rfl
  | cons m rest ih =>
    have h1 := (hb m (st.emit (.message m))).dispatchLockActions
    have h0 : dispatchLockActions (st.emit (.message m)).trace
        = dispatchLockActions st.trace := by
      simp [HState.emit, dispatchLockActions]
    rw [h0] at h1
    unfold messageLoop
    split
    · next st1 e heq => rw [heq] at h1; exact h1
    · next st1 b heq => rw [heq] at h1; exact h1
    · next st1 heq => rw [heq] at h1; rw [ih st1]; exact h1

theorem messageLoop_consoleLockOk (hb : ∀ m st, BodyExt st (body m st).1)
    (msgs : List Message) (st : HState) (hst : ConsoleLockOk st.trace) :
    ConsoleLockOk (messageLoop body msgs st).1.trace := by
  induction msgs generalizing st with
  | nil => exact hst
  | cons m rest ih =>
    have h0 : ConsoleLockOk (st.emit (.message m)).trace :=
      hst.append (ConsoleLockOk.single_message m)
    have h1 := (hb m (st.emit (.message m))).consoleLockOk h0
    unfold messageLoop
    split
    · next st1 e heq => rw [heq] at h1; exact h1
    · next st1 b heq => rw [heq] at h1; exact h1
    · next st1 heq => rw [heq] at h1; exact ih st1 h1

end Loop

/-! ## Early exit of the message loop -/

section LoopExit

variable {body : Message → HState → HState × Except Exception Flow} {p : Message → Bool}

theorem messageLoop_cons_error {m : Message} {rest : List Message} {st st1 : HState}
    {e : Exception} (h : body m (st.emit (.message m)) = (st1, .error e)) :
    messageLoop body (m :: rest) st = (st1, .error e) := by
  rw [messageLoop, h]

theorem messageLoop_cons_ret {m : Message} {rest : List Message} {st st1 : HState}
    {b : Bool} (h : body m (st.emit (.message m)) = (st1, .ok (.ret b))) :
    messageLoop body (m :: rest) st = (st1, .ok b) := by
  rw [messageLoop, h]

theorem messageLoop_cons_next {m : Message} {rest : List Message} {st st1 : HState}
    (h : body m (st.emit (.message m)) = (st1, .ok .next)) :
    messageLoop body (m :: rest) st = messageLoop body rest st1 := by
  rw [messageLoop, h]

theorem messageLoop_result
    (hret : ∀ m st b, (body m st).2 = .ok (.ret b) → b = false ∧ p m = true)
    (hnext : ∀ m st, (body m st).2 = .ok .next → p m = false)
    (msgs : List Message) (st : HState) (b : Bool)
    (hok : (messageLoop body msgs st).2 = .ok b) :
    b = false ↔ ∃ m ∈ msgs, p m = true := by
  induction msgs generalizing st with
  | nil =>
    simp only [messageLoop] at hok
    cases hok
    simp
  | cons m rest ih =>
    have hr := hret m (st.emit (.message m))
    have hn := hnext m (st.emit (.message m))
    match hbody : body m (st.emit (.message m)) with
    | (st1, .error e) =>
      rw [messageLoop_cons_error hbody] at hok
      simp at hok
    | (st1, .ok (.ret b1)) =>
      rw [hbody] at hr
      rw [messageLoop_cons_ret hbody] at hok
      obtain ⟨hb1, hp⟩ := hr b1 rfl
      cases hok
      simp [hb1, hp]
    | (st1, .ok .next) =>
      rw [hbody] at hn
      rw [messageLoop_cons_next hbody] at hok
      rw [ih st1 hok]
      simp [hn rfl]

end LoopExit

/-! ## The session handler -/

theorem failure_ne_started : ¬ (SESSION_STARTUP_FAILURE = SESSION_STARTED) := by decide

theorem started_ne_failure : ¬ (SESSION_STARTED = SESSION_STARTUP_FAILURE) := by decide

theorem libCall_state (session : Session) (c : LibCall) (st : HState) :
    (libCall session c st).1 = st.emit (.call c) := by
  unfold libCall
  dsimp only
  split <;> rfl

theorem sessionBody_ret (session : Session) (m : Message) (st : HState) (b : Bool)
    (h : (sessionBody session m st).2 = .ok (.ret b)) :
    b = false ∧ stopsAt .SESSION_STATUS m = true := by
  unfold sessionBody at h
  split at h
  · split at h <;> simp at h
  · split at h
    · next hf =>
      simp at h
      exact ⟨h, by simp [stopsAt, hf]⟩
    · simp at h

theorem sessionBody_next (session : Session) (m : Message) (st : HState)
    (h : (sessionBody session m st).2 = .ok .next) :
    stopsAt .SESSION_STATUS m = false := by
  unfold sessionBody at h
  split at h
  · next hs =>
    have : m.messageType ≠ SESSION_STARTUP_FAILURE := by
      rw [hs]; exact started_ne_failure
    simp [stopsAt, this]
  · split at h
    · simp at h
    · next hf => simp [stopsAt, hf]

theorem openServiceCalls_append (a b : List Effect) :
    openServiceCalls (a ++ b) = openServiceCalls a ++ openServiceCalls b := by
  simp [openServiceCalls]

theorem sessionBody_openServiceCalls (session : Session) (m : Message) (st : HState) :
    openServiceCalls (sessionBody session m (st.emit (.message m))).1.trace =
      openServiceCalls st.trace ++
        if m.messageType = SESSION_STARTED then [d_service] else [] := by
  unfold sessionBody
  split
  · have h := libCall_state session (.openServiceAsync d_service)
      (consoleOut "Session started...\n" (st.emit (.message m)))
    split
    · next st1 e heq =>
      rw [heq] at h
      simp only at h
      rw [h]
      simp [HState.emit, consoleOut, flushEffects, openServiceCalls]
    · next st1 u heq =>
      rw [heq] at h
      simp only at h
      rw [h]
      simp [HState.emit, consoleOut, flushEffects, openServiceCalls]
  · split
    · simp [HState.emit, consoleOut, flushEffects, openServiceCalls]
    · simp [HState.emit, openServiceCalls]

theorem startedBeforeFailure_cons (m : Message) (rest : List Message) :
    startedBeforeFailure (m :: rest) =
      if m.messageType = SESSION_STARTUP_FAILURE then 0
      else (if m.messageType = SESSION_STARTED then 1 else 0) + startedBeforeFailure rest := by
  unfold startedBeforeFailure
  by_cases hf : m.messageType = SESSION_STARTUP_FAILURE
  · simp [List.takeWhile_cons, hf]
  · have htw : List.takeWhile (fun m => decide (m.messageType ≠ SESSION_STARTUP_FAILURE))
        (m :: rest) = m :: List.takeWhile
          (fun m => decide (m.messageType ≠ SESSION_STARTUP_FAILURE)) rest := by
      simp [List.takeWhile_cons, hf]
    rw [htw, List.countP_cons, if_neg hf]
    by_cases hs : m.messageType = SESSION_STARTED
    · simp only [hs, decide_True, if_true]
      omega
    · simp only [hs, decide_False, if_false]
      simp

/-- The open-service calls of the session loop: one per `SessionStarted` message
met, never more than there are before the first failure message, and exactly
that many when the loop ends without exception. -/
theorem sessionLoop_openServiceCalls (session : Session) (msgs : List Message)
    (st : HState) :
    ∃ k, openServiceCalls (messageLoop (sessionBody session) msgs st).1.trace =
          openServiceCalls st.trace ++ List.replicate k d_service
      ∧ k ≤ startedBeforeFailure msgs
      ∧ (∀ b, (messageLoop (sessionBody session) msgs st).2 = .ok b →
          k = startedBeforeFailure msgs) := by
  induction msgs generalizing st with
  | nil => exact ⟨0, by simp [messageLoop], by simp [startedBeforeFailure], by
      intro b _; simp [startedBeforeFailure]⟩
  | cons m rest ih =>
    have ho := sessionBody_openServiceCalls session m st
    have hr := sessionBody_ret session m (st.emit (.message m))
    have hn := sessionBody_next session m (st.emit (.message m))
    rw [startedBeforeFailure_cons]
    match hbody : sessionBody session m (st.emit (.message m)) with
    | (st1, .error e) =>
      rw [hbody] at ho
      rw [messageLoop_cons_error hbody]
      by_cases hs : m.messageType = SESSION_STARTED
      · have hf : ¬ m.messageType = SESSION_STARTUP_FAILURE := by
          rw [hs]; exact started_ne_failure
        refine ⟨1, by simpa [hs] using ho, ?_, by intro b hb; simp at hb⟩
        rw [if_neg hf, if_pos hs]
        omega
      · exact ⟨0, by simpa [hs] using ho, by simp, by intro b hb; simp at hb⟩
    | (st1, .ok (.ret b1)) =>
      rw [hbody] at ho hr
      rw [messageLoop_cons_ret hbody]
      obtain ⟨_, hp⟩ := hr b1 rfl
      have hf : m.messageType = SESSION_STARTUP_FAILURE := by simpa [stopsAt] using hp
      have hs : ¬ m.messageType = SESSION_STARTED := by
        rw [hf]; exact failure_ne_started
      exact ⟨0, by simpa [hs] using ho, by simp, by intro b hb; rw [if_pos hf]⟩
    | (st1, .ok .next) =>
      rw [hbody] at ho hn
      rw [messageLoop_cons_next hbody]
      have hf : ¬ m.messageType = SESSION_STARTUP_FAILURE := by
        simpa [stopsAt] using hn rfl
      obtain ⟨k, hk, hle, heq2⟩ := ih st1
      rw [if_neg hf]
      by_cases hs : m.messageType = SESSION_STARTED
      · rw [if_pos hs]
        refine ⟨k + 1, ?_, by omega, ?_⟩
        · rw [hk, ho, if_pos hs, List.append_assoc]
          rfl
        · intro b hb
          have := heq2 b hb
          omega
      · rw [if_neg hs]
        refine ⟨k, ?_, by omega, ?_⟩
        · rw [hk, ho, if_neg hs, List.append_nil]
        · intro b hb
          have := heq2 b hb
          omega

/-! ## The four handlers and the dispatch -/

theorem categoryHandler_grows (session : Session) (event : Event) (st : HState) :
    st.trace <+: (categoryHandler session event st).1.trace := by
  obtain ⟨ty, msgs⟩ := event
  cases ty
  · exact (consoleOut_ext _ st).grows.trans
      (messageLoop_grows (sessionBody_ext session) _ _)
  · exact (consoleOut_ext _ st).grows.trans
      (messageLoop_grows (serviceBody_ext session) _ _)
  · exact (consoleOut_ext _ st).grows.trans
      (messageLoop_grows (responseBody_ext session) _ _)
  · exact (consoleOut_ext _ st).grows.trans
      (messageLoop_grows (miscBody_ext session) _ _)

theorem categoryHandler_dispatchLockActions (session : Session) (event : Event)
    (st : HState) :
    dispatchLockActions (categoryHandler session event st).1.trace
      = dispatchLockActions st.trace := by
  obtain ⟨ty, msgs⟩ := event
  cases ty
  · exact (messageLoop_dispatchLockActions (sessionBody_ext session) _ _).trans
      (consoleOut_ext _ st).dispatchLockActions
  · exact (messageLoop_dispatchLockActions (serviceBody_ext session) _ _).trans
      (consoleOut_ext _ st).dispatchLockActions
  · exact (messageLoop_dispatchLockActions (responseBody_ext session) _ _).trans
      (consoleOut_ext _ st).dispatchLockActions
  · exact (messageLoop_dispatchLockActions (miscBody_ext session) _ _).trans
      (consoleOut_ext _ st).dispatchLockActions

theorem categoryHandler_consoleLockOk (session : Session) (event : Event)
    (st : HState) (hst : ConsoleLockOk st.trace) :
    ConsoleLockOk (categoryHandler session event st).1.trace := by
  obtain ⟨ty, msgs⟩ := event
  cases ty
  · exact messageLoop_consoleLockOk (sessionBody_ext session) _ _
      ((consoleOut_ext _ st).consoleLockOk hst)
  · exact messageLoop_consoleLockOk (serviceBody_ext session) _ _
      ((consoleOut_ext _ st).consoleLockOk hst)
  · exact messageLoop_consoleLockOk (responseBody_ext session) _ _
      ((consoleOut_ext _ st).consoleLockOk hst)
  · exact messageLoop_consoleLockOk (miscBody_ext session) _ _
      ((consoleOut_ext _ st).consoleLockOk hst)

theorem guarded_trace (handler : HState → HState × Except Exception Bool) (st : HState) :
    (guarded handler st).1.trace
      = (handler (st.emit (.acquire .d_mutex))).1.trace ++ [.release .d_mutex] := rfl

theorem guarded_result (handler : HState → HState × Except Exception Bool) (st : HState) :
    (guarded handler st).2 = (handler (st.emit (.acquire .d_mutex))).2 := rfl

/-- The `switch` runs the handler of the category, inside the guard for the
three named categories and bare for the others. -/
theorem dispatch_eq (session : Session) (event : Event) (st : HState) :
    dispatch session event st =
      if event.eventType = .OTHER then categoryHandler session event st
      else guarded (categoryHandler session event) st := by
  unfold dispatch categoryHandler
  cases event.eventType <;> simp

theorem processEvent_trace (session : Session) (event : Event) (requestID : CorrelationId) :
    (processEvent session event requestID).1.trace =
      (dispatch session event ⟨[], requestID⟩).1.trace ++
        match raisedBy session event requestID with
        | none => []
        | some e => flushEffects ("Library Exception !!!" ++ e.description ++ "\n") := by
  unfold processEvent raisedBy
  split <;> rename_i heq <;> simp [heq, consoleOut]

theorem processEvent_result (session : Session) (event : Event) (requestID : CorrelationId) :
    (processEvent session event requestID).2 =
      match (dispatch session event ⟨[], requestID⟩).2 with
      | .ok b => .ok b
      | .error _ => .ok false := by
  unfold processEvent
  split <;> rename_i heq <;> simp [heq]

theorem raisedBy_none_iff (session : Session) (event : Event) (requestID : CorrelationId) :
    raisedBy session event requestID = none ↔
      ∃ b, (dispatch session event ⟨[], requestID⟩).2 = .ok b := by
  unfold raisedBy
  cases (dispatch session event ⟨[], requestID⟩).2 <;> simp

theorem opened_ne_open_failure : ¬ (SERVICE_OPENED = SERVICE_OPEN_FAILURE) := by decide

theorem serviceBody_ret (session : Session) (m : Message) (st : HState) (b : Bool)
    (h : (serviceBody session m st).2 = .ok (.ret b)) :
    b = false ∧ stopsAt .SERVICE_STATUS m = true := by
  unfold serviceBody at h
  split at h
  · split at h
    · simp at h
    · split at h
      · simp at h
      · split at h
        · simp at h
        · dsimp only at h
          split at h <;> simp at h
  · split at h
    · next hf =>
      simp at h
      exact ⟨h, by simp [stopsAt, hf]⟩
    · simp at h

theorem openServiceCalls_tail (o : Option Exception) :
    openServiceCalls (match o with
      | none => []
      | some e => flushEffects ("Library Exception !!!" ++ e.description ++ "\n")) = [] := by
  cases o with
  | none => rfl
  | some e => simp [openServiceCalls, flushEffects]

/-- The log of `processEvent` for a guarded category, in terms of the handler. -/
theorem processEvent_guarded_trace (session : Session) (event : Event)
    (requestID : CorrelationId) (hty : event.eventType ≠ .OTHER) :
    (processEvent session event requestID).1.trace =
      (categoryHandler session event ⟨[.acquire .d_mutex], requestID⟩).1.trace
        ++ [.release .d_mutex]
        ++ match raisedBy session event requestID with
          | none => []
          | some e => flushEffects ("Library Exception !!!" ++ e.description ++ "\n") := by
  rw [processEvent_trace, dispatch_eq]
  simp only [hty, if_false, guarded_trace]
  rfl

theorem dispatch_guarded_result (session : Session) (event : Event)
    (requestID : CorrelationId) (hty : event.eventType ≠ .OTHER) :
    (dispatch session event ⟨[], requestID⟩).2 =
      (categoryHandler session event ⟨[.acquire .d_mutex], requestID⟩).2 := by
  rw [dispatch_eq]
  simp only [hty, if_false, guarded_result]
  rfl

theorem startedBeforeFailure_of_no_failure (msgs : List Message)
    (h : ∀ m ∈ msgs, m.messageType ≠ SESSION_STARTUP_FAILURE) :
    startedBeforeFailure msgs =
      msgs.countP fun m => decide (m.messageType = SESSION_STARTED) := by
  induction msgs with
  | nil => rfl
  | cons m rest ih =>
    have hm : ¬ m.messageType = SESSION_STARTUP_FAILURE := h m (List.mem_cons_self _ _)
    rw [startedBeforeFailure_cons, if_neg hm, List.countP_cons,
      ih fun x hx => h x (List.mem_cons_of_mem _ hx)]
    by_cases hs : m.messageType = SESSION_STARTED
    · simp only [hs, decide_True, if_true]
      omega
    · simp only [hs, decide_False, if_false]
      simp

/-! ## The service handler -/

theorem populate_ok (session : Session) (ops : List ReqOp) (r : Request) (st st1 : HState)
    (r1 : Request) (h : populate session ops r st = (st1, .ok r1)) :
    r1 = ops.foldl ReqOp.apply r
      ∧ st1.trace = st.trace ++ ops.map (fun op => Effect.call (.populate op))
      ∧ st1.requestID = st.requestID := by
  induction ops generalizing r st with
  | nil =>
    simp only [populate, Prod.mk.injEq, Except.ok.injEq] at h
    obtain ⟨h1, h2⟩ := h
    subst h1 h2
    simp
  | cons op ops ih =>
    have hs := libCall_state session (.populate op) st
    unfold populate at h
    split at h
    · simp at h
    · next st2 u heq =>
      rw [heq] at hs
      simp only at hs
      obtain ⟨h1, h2, h3⟩ := ih _ _ h
      subst hs
      refine ⟨h1, ?_, h3⟩
      rw [h2]
      simp [HState.emit]

theorem sendRequestCalls_append (a b : List Effect) :
    sendRequestCalls (a ++ b) = sendRequestCalls a ++ sendRequestCalls b := by
  simp [sendRequestCalls]

theorem createRequestCalls_append (a b : List Effect) :
    createRequestCalls (a ++ b) = createRequestCalls a ++ createRequestCalls b := by
  simp [createRequestCalls]

theorem sendRequestCalls_populate (ops : List ReqOp) :
    sendRequestCalls (ops.map fun op => Effect.call (.populate op)) = [] := by
  induction ops with
  | nil => rfl
  | cons op ops ih =>
    rw [List.map_cons, ← List.singleton_append, sendRequestCalls_append, ih]
    rfl

theorem createRequestCalls_populate (ops : List ReqOp) :
    createRequestCalls (ops.map fun op => Effect.call (.populate op)) = [] := by
  induction ops with
  | nil => rfl
  | cons op ops ih =>
    rw [List.map_cons, ← List.singleton_append, createRequestCalls_append, ih]
    rfl

/-- The single pass through the `ServiceOpened` branch when nothing throws. -/
theorem serviceBody_opened_ok (session : Session) (msg : Message) (st st1 : HState)
    (flow : Flow) (hty : msg.messageType = SERVICE_OPENED)
    (h : serviceBody session msg st = (st1, .ok flow)) :
    flow = .next ∧ st1.requestID = .unset
      ∧ st1.trace = st.trace ++ flushEffects "Service opened...\n"
          ++ [.call (.getService d_service), .call (.createRequest "GroupRouteEx")]
          ++ requestOps.map (fun op => Effect.call (.populate op))
          ++ flushEffects ("Request: " ++ session.printRequest groupRouteExRequest ++ "\n")
          ++ [.call (.sendRequest groupRouteExRequest .unset)] := by
  unfold serviceBody at h
  rw [if_pos hty] at h
  have hs1 := libCall_state session (.getService d_service)
    (consoleOut "Service opened...\n" st)
  split at h
  · simp at h
  · next sa ua ha =>
    rw [ha] at hs1
    simp only at hs1
    have hs2 := libCall_state session (.createRequest "GroupRouteEx") sa
    split at h
    · simp at h
    · next sb ub hb =>
      rw [hb] at hs2
      simp only at hs2
      split at h
      · simp at h
      · next sc request hc =>
        obtain ⟨hr, htc, _⟩ := populate_ok session _ _ _ _ _ hc
        have hg : request = groupRouteExRequest := hr
        dsimp only at h
        have hs6 := libCall_state session (.sendRequest request CorrelationId.unset)
          { consoleOut ("Request: " ++ session.printRequest request ++ "\n") sc with
            requestID := CorrelationId.unset }
        split at h
        · simp at h
        · next sf uf hf =>
          rw [hf] at hs6
          simp only at hs6
          simp only [Prod.mk.injEq, Except.ok.injEq] at h
          obtain ⟨h1, h2⟩ := h
          subst h1 hs6 hg hs2 hs1
          refine ⟨h2.symm, rfl, ?_⟩
          simp [HState.emit, consoleOut, htc]

theorem membership_all_append {Q : Effect → Prop} {a b : List Effect}
    (ha : ∀ e ∈ a, Q e) (hb : ∀ e ∈ b, Q e) : ∀ e ∈ a ++ b, Q e := by
  intro e he
  rcases List.mem_append.1 he with h | h
  · exact ha e h
  · exact hb e h

theorem consoleOut_sends (text : String) (st : HState)
    (hst : ∀ e ∈ st.trace, SendsBuiltRequest e) :
    ∀ e ∈ (consoleOut text st).trace, SendsBuiltRequest e := by
  refine membership_all_append hst ?_
  intro e he
  simp only [flushEffects, List.mem_cons, List.mem_singleton, List.not_mem_nil,
    or_false] at he
  intro r cid hr
  rcases he with h | h | h | h <;> rw [h] at hr <;> cases hr

theorem libCall_sends (session : Session) (c : LibCall) (st : HState)
    (hc : SendsBuiltRequest (.call c))
    (hst : ∀ e ∈ st.trace, SendsBuiltRequest e) :
    ∀ e ∈ (libCall session c st).1.trace, SendsBuiltRequest e := by
  rw [libCall_state]
  refine membership_all_append hst ?_
  intro e he
  rw [List.mem_singleton.1 he]
  exact hc

theorem populate_sends (session : Session) (ops : List ReqOp) (r : Request) (st : HState)
    (hst : ∀ e ∈ st.trace, SendsBuiltRequest e) :
    ∀ e ∈ (populate session ops r st).1.trace, SendsBuiltRequest e := by
  induction ops generalizing r st with
  | nil => exact hst
  | cons op ops ih =>
    have h := libCall_sends session (.populate op) st (fun _ _ hr => by cases hr) hst
    unfold populate
    split
    · next st1 e heq => rw [heq] at h; exact h
    · next st1 u heq =>
      rw [heq] at h
      exact ih _ st1 h

theorem serviceBody_sends (session : Session) (msg : Message) (st : HState)
    (hst : ∀ e ∈ st.trace, SendsBuiltRequest e) :
    ∀ e ∈ (serviceBody session msg st).1.trace, SendsBuiltRequest e := by
  unfold serviceBody
  split
  · have h1 := libCall_sends session (.getService d_service) _
      (fun _ _ hr => by cases hr) (consoleOut_sends "Service opened...\n" st hst)
    split
    · next st1 e heq => rw [heq] at h1; exact h1
    · next st1 u heq =>
      rw [heq] at h1
      have h2 := libCall_sends session (.createRequest "GroupRouteEx") st1
        (fun _ _ hr => by cases hr) h1
      split
      · next st2 e heq2 => rw [heq2] at h2; exact h2
      · next st2 u2 heq2 =>
        rw [heq2] at h2
        have h3 := populate_sends session requestOps (Request.create "GroupRouteEx") st2 h2
        split
        · next st3 e heq3 => rw [heq3] at h3; exact h3
        · next st3 request heq3 =>
          rw [heq3] at h3
          have hg : request = groupRouteExRequest :=
            (populate_ok session _ _ _ _ _ heq3).1
          have h4 : ∀ e ∈ ({ consoleOut ("Request: " ++ session.printRequest request
              ++ "\n") st3 with requestID := CorrelationId.unset } : HState).trace,
              SendsBuiltRequest e :=
            consoleOut_sends _ st3 h3
          have h5 := libCall_sends session (.sendRequest request CorrelationId.unset) _
            (fun r cid hr => by cases hr; exact ⟨hg, rfl⟩) h4
          dsimp only
          split
          · next st6 e heq6 => rw [heq6] at h5; exact h5
          · next st6 u6 heq6 => rw [heq6] at h5; exact h5
  · split
    · exact consoleOut_sends _ st hst
    · exact hst

theorem messageLoop_sends {body : Message → HState → HState × Except Exception Flow}
    (hb : ∀ m st, (∀ e ∈ st.trace, SendsBuiltRequest e) →
      ∀ e ∈ (body m st).1.trace, SendsBuiltRequest e)
    (msgs : List Message) (st : HState)
    (hst : ∀ e ∈ st.trace, SendsBuiltRequest e) :
    ∀ e ∈ (messageLoop body msgs st).1.trace, SendsBuiltRequest e := by
  induction msgs generalizing st with
  | nil => exact hst
  | cons m rest ih =>
    have h0 : ∀ e ∈ (st.emit (.message m)).trace, SendsBuiltRequest e :=
      membership_all_append hst (fun e he => by
        rw [List.mem_singleton.1 he]
        intro _ _ hr
        cases hr)
    have h1 := hb m _ h0
    match hbody : body m (st.emit (.message m)) with
    | (st1, .error e) =>
      rw [messageLoop_cons_error hbody]; rw [hbody] at h1; exact h1
    | (st1, .ok (.ret b1)) =>
      rw [messageLoop_cons_ret hbody]; rw [hbody] at h1; exact h1
    | (st1, .ok .next) =>
      rw [messageLoop_cons_next hbody]; rw [hbody] at h1; exact ih st1 h1

theorem mem_sendRequestCalls {t : List Effect} {r : Request} {cid : CorrelationId}
    (h : (r, cid) ∈ sendRequestCalls t) : Effect.call (.sendRequest r cid) ∈ t := by
  unfold sendRequestCalls at h
  rw [List.mem_filterMap] at h
  obtain ⟨e, he, hm⟩ := h
  split at hm
  · next r1 c1 =>
    simp only [Option.some.injEq, Prod.mk.injEq] at hm
    obtain ⟨h1, h2⟩ := hm
    subst h1 h2
    exact he
  · simp at hm

/-- The dispatch entry point always returns a boolean: no library exception
leaves it. -/
theorem processEvent_never_throws (session : Session) (event : Event)
    (requestID : CorrelationId) :
    ∃ b, (processEvent session event requestID).2 = .ok b := by
  rw [processEvent_result]
  cases (dispatch session event ⟨[], requestID⟩).2 with
  | error e => exact ⟨false, rfl⟩
  | ok b => exact ⟨b, rfl⟩

/-- Whatever `startAsync()` returns, a controller whose library calls do not
throw goes on to the console read and to `stop()`. -/
theorem run_reaches_getline (session : Session)
    (hquiet : ∀ t, session.raises t = none) :
    (run session).1.trace =
        flushEffects "Connecting to localhost:8194\n"
        ++ [.call .startAsync]
        ++ flushEffects "\nPress ENTER to quit\n"
        ++ [.getline, .acquire .d_mutex, .setIsStopped true, .release .d_mutex, .call .stop]
        ++ flushEffects "\nExiting...\n"
      ∧ (run session).2 = .ok () := by
  have hc : "Connecting to " ++ serverHost ++ ":" ++ toString serverPort ++ "\n"
      = "Connecting to localhost:8194\n" := by decide
  simp only [run, createSession, runCall, runOut, hquiet, hc]
  simp

/-! ## The handlers against what each message type calls for -/

theorem groupRouteExRequest_eq : groupRouteExRequest = populatedRequest := by decide

section LoopRouted

variable {body : Message → HState → HState × Except Exception Flow} {p : Message → Bool}
  {handle : Message → List Effect}

end LoopRouted

/-- C1: a group-route result without `EMSX_SUCCESS_ROUTES` whose `EMSX_FAILED_ROUTES`
list has one entry is processed without any "Failed: " line: the output is the
header, the dump of the message and the trailing message line only.  The same
message with an empty `EMSX_SUCCESS_ROUTES` list added does get its "Failed: "
line. -/
theorem failed_routes_dropped_without_success_routes :
    allFailedMessage.EMSX_FAILED_ROUTES =
        some [⟨.ok 3734837, .ok 12, .ok "broker rejected"⟩]
      ∧ output (processEvent quietSession ⟨.RESPONSE, [allFailedMessage]⟩ .unset).1.trace =
        ["Processing RESPONSE_EVENT\n", "MESSAGE: GroupRouteEx\n", "MESSAGE:done\n"]
      ∧ (processEvent quietSession ⟨.RESPONSE, [allFailedMessage]⟩ .unset).2 = .ok true
      ∧ output (processEvent quietSession
          ⟨.RESPONSE, [allFailedEmptySuccessMessage]⟩ .unset).1.trace =
        ["Processing RESPONSE_EVENT\n", "MESSAGE: GroupRouteEx\n",
          "Failed: 3734837, 12: broker rejected\n", "MESSAGE:done\n"] := by
  decide

/-- C3: for a Response event holding one GroupRouteEx message with success list `S`,
failed list `F` and message text `m`, `processEvent` writes the header, the dump
of the message, then one "Success: " line per entry of `S` in order, then one
"Failed: " line per entry of `F` in order, then one "MESSAGE:" line, and
returns true. -/
theorem group_route_result_lines (session : Session) (msg : Message)
    (S : List (Int × Int)) (F : List (Int × Int × String)) (m : String)
    (requestID : CorrelationId)
    (hty : msg.messageType = GROUP_ROUTE_EX)
    (hS : msg.EMSX_SUCCESS_ROUTES = some (S.map fun p => ⟨.ok p.1, .ok p.2⟩))
    (hF : msg.EMSX_FAILED_ROUTES = some (F.map fun p => ⟨.ok p.1, .ok p.2.1, .ok p.2.2⟩))
    (hm : msg.MESSAGE = .ok m) :
    output (processEvent session ⟨.RESPONSE, [msg]⟩ requestID).1.trace =
        ["Processing RESPONSE_EVENT\n", "MESSAGE: " ++ session.printMessage msg ++ "\n"]
        ++ S.map (fun p => "Success: " ++ toString p.1 ++ ", " ++ toString p.2 ++ "\n")
        ++ F.map (fun p =>
            "Failed: " ++ toString p.1 ++ ", " ++ toString p.2.1 ++ ": " ++ p.2.2 ++ "\n")
        ++ ["MESSAGE:" ++ m ++ "\n"]
      ∧ (processEvent session ⟨.RESPONSE, [msg]⟩ requestID).2 = .ok true := by
  have hne : ¬ (GROUP_ROUTE_EX = ERROR_INFO) := by decide
  simp only [processEvent, dispatch, guarded, processResponseEvent, messageLoop,
    responseBody, routeLists, hty, hS, hF, hm, hne, if_false, if_true,
    successLoop_ok, failedLoop_ok]
  simp [output_append, output_flushEffects, output_join_flushEffects, consoleOut,
    HState.emit, output_cons, output_nil]

/-- Witness for C3: the end-to-end scenario gives two success lines, one failure
line and the trailing message line, in that order. -/
theorem group_route_result_lines_witness :
    output (processEvent quietSession ⟨.RESPONSE, [scenarioMessage]⟩ .unset).1.trace =
        ["Processing RESPONSE_EVENT\n", "MESSAGE: " ++ quietSession.printMessage scenarioMessage ++ "\n"]
        ++ [((3734835 : Int), (101 : Int)), (3734836, 102)].map
            (fun p => "Success: " ++ toString p.1 ++ ", " ++ toString p.2 ++ "\n")
        ++ [((3734837 : Int), (12 : Int), "broker rejected")].map (fun p =>
            "Failed: " ++ toString p.1 ++ ", " ++ toString p.2.1 ++ ": " ++ p.2.2 ++ "\n")
        ++ ["MESSAGE:" ++ "done" ++ "\n"]
      ∧ (processEvent quietSession ⟨.RESPONSE, [scenarioMessage]⟩ .unset).2 = .ok true :=
  group_route_result_lines quietSession scenarioMessage
    [(3734835, 101), (3734836, 102)] [(3734837, 12, "broker rejected")] "done" .unset
    rfl rfl rfl rfl

/-- C8: with a session whose `startAsync()` reports failure, `run` still prints the
prompt, blocks on the console read, sets the stop flag under the dispatch lock
and calls `stop()`. -/
theorem run_ignores_startAsync_failure :
    failedStartSession.startAsyncResult = false
      ∧ (run failedStartSession).1.trace =
        flushEffects "Connecting to localhost:8194\n"
        ++ [.call .startAsync]
        ++ flushEffects "\nPress ENTER to quit\n"
        ++ [.getline, .acquire .d_mutex, .setIsStopped true, .release .d_mutex, .call .stop]
        ++ flushEffects "\nExiting...\n"
      ∧ (run failedStartSession).1.d_isStopped = true := by
  decide

/-- C9: for an event of category SessionStatus, ServiceStatus or Response the log
of `processEvent` is: acquire `d_mutex`, then exactly what the handler of the
category does (which never touches `d_mutex`), then release `d_mutex`, then
nothing if the handler returned, or the one console flush of the `catch` block
if it threw.  For any other category no action on `d_mutex` occurs.  In every
case the console lock is taken only around single buffer flushes. -/
theorem dispatch_lock_discipline (session : Session) (event : Event)
    (requestID : CorrelationId) :
    (event.eventType ≠ .OTHER →
      ∃ body tail,
        (processEvent session event requestID).1.trace =
            .acquire .d_mutex :: (body ++ .release .d_mutex :: tail)
        ∧ (categoryHandler session event ⟨[.acquire .d_mutex], requestID⟩).1.trace =
            .acquire .d_mutex :: body
        ∧ dispatchLockActions body = []
        ∧ tail = (match raisedBy session event requestID with
            | none => []
            | some e => flushEffects ("Library Exception !!!" ++ e.description ++ "\n")))
      ∧ (event.eventType = .OTHER →
          dispatchLockActions (processEvent session event requestID).1.trace = [])
      ∧ ConsoleLockOk (processEvent session event requestID).1.trace := by
  have htail : ∀ o : Option Exception,
      dispatchLockActions (match o with
        | none => []
        | some e => flushEffects ("Library Exception !!!" ++ e.description ++ "\n")) = []
      ∧ ConsoleLockOk (match o with
        | none => []
        | some e => flushEffects ("Library Exception !!!" ++ e.description ++ "\n")) := by
    intro o
    cases o with
    | none => exact ⟨rfl, rfl⟩
    | some e => exact ⟨dispatchLockActions_stepEffects [.out _],
        by simpa [stepEffects] using consoleRun_stepEffects [.out _]⟩
  refine ⟨?_, ?_, ?_⟩
  · intro hty
    have hgrow := categoryHandler_grows session event ⟨[.acquire .d_mutex], requestID⟩
    obtain ⟨body, hbody⟩ := hgrow
    have hlock := categoryHandler_dispatchLockActions session event
      ⟨[.acquire .d_mutex], requestID⟩
    refine ⟨body, _, ?_, hbody.symm, ?_, rfl⟩
    · rw [processEvent_trace, dispatch_eq]
      simp only [hty, if_false, guarded_trace, HState.emit, List.nil_append]
      rw [← hbody]
      simp
    · rw [← hbody, dispatchLockActions_append] at hlock
      simpa [dispatchLockActions] using hlock
  · intro hty
    rw [processEvent_trace, dispatch_eq, dispatchLockActions_append,
      (htail _).1]
    simp only [hty, if_true, List.append_nil]
    rw [categoryHandler_dispatchLockActions]
    rfl
  · rw [processEvent_trace]
    refine ConsoleLockOk.append ?_ (htail _).2
    rw [dispatch_eq]
    by_cases hty : event.eventType = .OTHER
    · simp only [hty, if_true]
      exact categoryHandler_consoleLockOk session event _ rfl
    · simp only [hty, if_false, guarded_trace]
      refine ConsoleLockOk.append ?_ (ConsoleLockOk.single_lock_action _ (Or.inr rfl))
      exact categoryHandler_consoleLockOk session event _
        (ConsoleLockOk.single_lock_action _ (Or.inl rfl))

/-- Witness for C9: the two batches below are a Response batch and a batch of
another category. -/
theorem dispatch_lock_discipline_witness :
    (∃ body tail,
        (processEvent quietSession brokenBatch .unset).1.trace =
            .acquire .d_mutex :: (body ++ .release .d_mutex :: tail)
        ∧ (categoryHandler quietSession brokenBatch ⟨[.acquire .d_mutex], .unset⟩).1.trace =
            .acquire .d_mutex :: body
        ∧ dispatchLockActions body = []
        ∧ tail = (match raisedBy quietSession brokenBatch .unset with
            | none => []
            | some e => flushEffects ("Library Exception !!!" ++ e.description ++ "\n")))
      ∧ dispatchLockActions
          (processEvent quietSession ⟨.OTHER, [scenarioMessage]⟩ .unset).1.trace = [] :=
  ⟨(dispatch_lock_discipline quietSession brokenBatch .unset).1 (by decide),
    (dispatch_lock_discipline quietSession ⟨.OTHER, [scenarioMessage]⟩ .unset).2.1 rfl⟩

/-- C10: for a SessionStatus batch processed without a library exception, the
open-service calls are exactly one call of "//blp/emapisvc_beta" per
`SessionStarted` message that comes before the first `SessionStartupFailure`
message; `processEvent` returns false exactly when the batch holds a
`SessionStartupFailure` message; and a batch with exactly one `SessionStarted`
message and no failure message yields exactly one call. -/
theorem session_batch_open_service_calls (session : Session) (event : Event)
    (requestID : CorrelationId)
    (hty : event.eventType = .SESSION_STATUS)
    (hno : raisedBy session event requestID = none) :
    openServiceCalls (processEvent session event requestID).1.trace =
        List.replicate (startedBeforeFailure event.messages) "//blp/emapisvc_beta"
      ∧ ((processEvent session event requestID).2 = .ok false ↔
          ∃ m ∈ event.messages, m.messageType = SESSION_STARTUP_FAILURE)
      ∧ ((∀ m ∈ event.messages, m.messageType ≠ SESSION_STARTUP_FAILURE) →
          event.messages.countP (fun m => decide (m.messageType = SESSION_STARTED)) = 1 →
          openServiceCalls (processEvent session event requestID).1.trace =
            ["//blp/emapisvc_beta"]) := by
  have hne : event.eventType ≠ .OTHER := by rw [hty]; decide
  obtain ⟨b, hb⟩ := (raisedBy_none_iff session event requestID).1 hno
  have hres := dispatch_guarded_result session event requestID hne
  rw [hb] at hres
  have htr := processEvent_guarded_trace session event requestID hne
  have hcat : categoryHandler session event = processSessionEvent session event := by
    unfold categoryHandler; rw [hty]
  rw [hcat] at hres htr
  unfold processSessionEvent at hres htr
  obtain ⟨k, hk, _, hkeq⟩ := sessionLoop_openServiceCalls session event.messages
    (consoleOut "Processing SESSION_EVENT\n" ⟨[.acquire .d_mutex], requestID⟩)
  have hkb := hkeq b hres.symm
  have hcalls : openServiceCalls (processEvent session event requestID).1.trace =
      List.replicate (startedBeforeFailure event.messages) "//blp/emapisvc_beta" := by
    rw [htr, openServiceCalls_append, openServiceCalls_append, openServiceCalls_tail, hk, hkb]
    simp [openServiceCalls, consoleOut, flushEffects, d_service]
  refine ⟨hcalls, ?_, ?_⟩
  · rw [processEvent_result, hb]
    have := messageLoop_result (sessionBody_ret session) (sessionBody_next session)
      event.messages _ b hres.symm
    simpa [stopsAt] using this
  · intro hnf hone
    rw [hcalls, startedBeforeFailure_of_no_failure _ hnf, hone]
    rfl

/-- Witness for C10: one `SessionStarted` message, one open-service call. -/
theorem session_batch_open_service_calls_witness :
    openServiceCalls (processEvent quietSession startedBatch .unset).1.trace =
        List.replicate (startedBeforeFailure startedBatch.messages) "//blp/emapisvc_beta"
      ∧ ((processEvent quietSession startedBatch .unset).2 = .ok false ↔
          ∃ m ∈ startedBatch.messages, m.messageType = SESSION_STARTUP_FAILURE)
      ∧ ((∀ m ∈ startedBatch.messages, m.messageType ≠ SESSION_STARTUP_FAILURE) →
          startedBatch.messages.countP (fun m => decide (m.messageType = SESSION_STARTED)) = 1 →
          openServiceCalls (processEvent quietSession startedBatch .unset).1.trace =
            ["//blp/emapisvc_beta"]) :=
  session_batch_open_service_calls quietSession startedBatch .unset rfl (by decide)

/-- C4, as the claim states it, fails: in `startedThenFailureBatch` a
`SessionStarted` message precedes the `SessionStartupFailure` message, and
`processEvent` issues one open-service call before it returns false. -/
theorem startup_failure_after_started_opens_service :
    (∃ m ∈ startedThenFailureBatch.messages, m.messageType = SESSION_STARTUP_FAILURE)
      ∧ (processEvent quietSession startedThenFailureBatch .unset).2 = .ok false
      ∧ openServiceCalls (processEvent quietSession startedThenFailureBatch .unset).1.trace =
          ["//blp/emapisvc_beta"]
      ∧ openServiceCalls (processEvent quietSession startedThenFailureBatch .unset).1.trace
          ≠ [] := by
  decide

/-- C4, amended: for a SessionStatus batch that holds a `SessionStartupFailure`
message, `processEvent` returns false; its open-service calls all name the
service and number at most the `SessionStarted` messages that come before the
first failure message, so none is issued for the failure message or after it,
and none at all when no `SessionStarted` message comes before it. -/
theorem startup_failure_returns_false (session : Session) (event : Event)
    (requestID : CorrelationId)
    (hty : event.eventType = .SESSION_STATUS)
    (hfail : ∃ m ∈ event.messages, m.messageType = SESSION_STARTUP_FAILURE) :
    (processEvent session event requestID).2 = .ok false
      ∧ (∃ k, k ≤ startedBeforeFailure event.messages ∧
          openServiceCalls (processEvent session event requestID).1.trace =
            List.replicate k "//blp/emapisvc_beta")
      ∧ (startedBeforeFailure event.messages = 0 →
          openServiceCalls (processEvent session event requestID).1.trace = []) := by
  have hne : event.eventType ≠ .OTHER := by rw [hty]; decide
  have hres := dispatch_guarded_result session event requestID hne
  have htr := processEvent_guarded_trace session event requestID hne
  have hcat : categoryHandler session event = processSessionEvent session event := by
    unfold categoryHandler; rw [hty]
  rw [hcat] at hres htr
  unfold processSessionEvent at hres htr
  obtain ⟨k, hk, hle, _⟩ := sessionLoop_openServiceCalls session event.messages
    (consoleOut "Processing SESSION_EVENT\n" ⟨[.acquire .d_mutex], requestID⟩)
  have hcalls : openServiceCalls (processEvent session event requestID).1.trace =
      List.replicate k "//blp/emapisvc_beta" := by
    rw [htr, openServiceCalls_append, openServiceCalls_append, openServiceCalls_tail, hk]
    simp [openServiceCalls, consoleOut, flushEffects, d_service]
  refine ⟨?_, ⟨k, hle, hcalls⟩, ?_⟩
  · rw [processEvent_result]
    match hd : (dispatch session event ⟨[], requestID⟩).2 with
    | .error e => rfl
    | .ok b =>
      rw [hd] at hres
      have := messageLoop_result (sessionBody_ret session) (sessionBody_next session)
        event.messages _ b hres.symm
      have hb : b = false := this.2 (by simpa [stopsAt] using hfail)
      rw [hb]
  · intro h0
    have hk0 : k = 0 := by omega
    rw [hcalls, hk0]
    rfl

/-- Witness for C4, amended: the failure message comes first, no call is issued. -/
theorem startup_failure_returns_false_witness :
    (processEvent quietSession failureFirstBatch .unset).2 = .ok false
      ∧ (∃ k, k ≤ startedBeforeFailure failureFirstBatch.messages ∧
          openServiceCalls (processEvent quietSession failureFirstBatch .unset).1.trace =
            List.replicate k "//blp/emapisvc_beta")
      ∧ (startedBeforeFailure failureFirstBatch.messages = 0 →
          openServiceCalls (processEvent quietSession failureFirstBatch .unset).1.trace = []) :=
  startup_failure_returns_false quietSession failureFirstBatch .unset rfl (by decide)

/-- C6, as the claim states it, fails: with a session whose `getService` throws, a
ServiceStatus event holding a single `ServiceOpened` message leads to no
`sendRequest` call at all, and `processEvent` returns false after logging the
exception. -/
theorem service_opened_getService_throws :
    (plainMessage SERVICE_OPENED).messageType = SERVICE_OPENED
      ∧ sendRequestCalls (processEvent noServiceSession
        ⟨.SERVICE_STATUS, [plainMessage SERVICE_OPENED]⟩ .unset).1.trace = []
      ∧ (processEvent noServiceSession
        ⟨.SERVICE_STATUS, [plainMessage SERVICE_OPENED]⟩ .unset).2 = .ok false
      ∧ (processEvent noServiceSession
        ⟨.SERVICE_STATUS, [plainMessage SERVICE_OPENED]⟩ .unset).2 ≠ .ok true
      ∧ output (processEvent noServiceSession
        ⟨.SERVICE_STATUS, [plainMessage SERVICE_OPENED]⟩ .unset).1.trace =
          ["Processing SERVICE_EVENT\n", "Service opened...\n",
            "Library Exception !!!service not open\n"] := by
  decide

/-- C6, amended: for a ServiceStatus event holding a single `ServiceOpened` message,
when no library exception is raised while the event is processed, `processEvent`
creates one "GroupRouteEx" request, populates it (the populated request is
`populatedRequest`, written out field by field), leaves a fresh `CorrelationId()`
in the `requestID` slot, calls `sendRequest` exactly once, with that request and
that correlation id, and returns true; for a single `ServiceOpenFailure` message
it never calls `sendRequest` and returns false. -/
theorem service_opened_sends_one_request (session : Session) (msg : Message)
    (requestID : CorrelationId) :
    (msg.messageType = SERVICE_OPENED →
      raisedBy session ⟨.SERVICE_STATUS, [msg]⟩ requestID = none →
        createRequestCalls (processEvent session ⟨.SERVICE_STATUS, [msg]⟩ requestID).1.trace
            = ["GroupRouteEx"]
        ∧ groupRouteExRequest.operation = "GroupRouteEx"
        ∧ (processEvent session ⟨.SERVICE_STATUS, [msg]⟩ requestID).1.requestID
            = CorrelationId.unset
        ∧ sendRequestCalls (processEvent session ⟨.SERVICE_STATUS, [msg]⟩ requestID).1.trace
            = [(groupRouteExRequest, CorrelationId.unset)]
        ∧ (processEvent session ⟨.SERVICE_STATUS, [msg]⟩ requestID).2 = .ok true
        ∧ sendRequestCalls (processEvent session ⟨.SERVICE_STATUS, [msg]⟩ requestID).1.trace
            = [(populatedRequest, CorrelationId.unset)])
      ∧ (msg.messageType = SERVICE_OPEN_FAILURE →
        sendRequestCalls (processEvent session ⟨.SERVICE_STATUS, [msg]⟩ requestID).1.trace = []
        ∧ (processEvent session ⟨.SERVICE_STATUS, [msg]⟩ requestID).2 = .ok false) := by
  constructor
  · intro hty hno
    rcases hbody : serviceBody session msg
        (HState.emit (consoleOut "Processing SERVICE_EVENT\n"
          (HState.emit ⟨[], requestID⟩ (.acquire .d_mutex))) (.message msg))
      with ⟨st1, (e | (_ | b1))⟩
    · simp [raisedBy, dispatch, guarded, processServiceEvent, messageLoop, hbody] at hno
    · obtain ⟨_, hrid, htr⟩ := serviceBody_opened_ok session msg _ st1 .next hty hbody
      have hpe : processEvent session ⟨.SERVICE_STATUS, [msg]⟩ requestID =
          (st1.emit (.release .d_mutex), .ok true) := by
        simp only [processEvent, dispatch, guarded, processServiceEvent, messageLoop, hbody]
      rw [hpe]
      have hsend : sendRequestCalls (st1.emit (.release .d_mutex)).trace =
          [(groupRouteExRequest, CorrelationId.unset)] := by
        simp only [HState.emit, htr, consoleOut, sendRequestCalls_append,
          sendRequestCalls_populate]
        simp [sendRequestCalls, flushEffects]
      refine ⟨?_, rfl, hrid, hsend, rfl, ?_⟩
      · simp only [HState.emit, htr, consoleOut, createRequestCalls_append,
          createRequestCalls_populate]
        simp [createRequestCalls, flushEffects]
      · rw [← groupRouteExRequest_eq]
        exact hsend
    · have h := (serviceBody_ret session msg _ b1 (by rw [hbody])).2
      simp [stopsAt, hty, opened_ne_open_failure] at h
  · intro hty
    have hne : ¬ msg.messageType = SERVICE_OPENED := by
      rw [hty]; exact fun h => opened_ne_open_failure h.symm
    have hpe : processEvent session ⟨.SERVICE_STATUS, [msg]⟩ requestID =
        ((consoleOut "Error: Service failed to open\n"
          (HState.emit (consoleOut "Processing SERVICE_EVENT\n"
            (HState.emit ⟨[], requestID⟩ (.acquire .d_mutex))) (.message msg))).emit
              (.release .d_mutex), .ok false) := by
      simp only [processEvent, dispatch, guarded, processServiceEvent, messageLoop,
        serviceBody, if_neg hne, if_pos hty]
    rw [hpe]
    refine ⟨?_, rfl⟩
    simp [sendRequestCalls, HState.emit, consoleOut, flushEffects]

/-- Witness for C6, amended: a quiet session, starting from a slot that holds
another id. -/
theorem service_opened_sends_one_request_witness :
    (createRequestCalls (processEvent quietSession
          ⟨.SERVICE_STATUS, [plainMessage SERVICE_OPENED]⟩ (.value 7)).1.trace
            = ["GroupRouteEx"]
        ∧ groupRouteExRequest.operation = "GroupRouteEx"
        ∧ (processEvent quietSession
          ⟨.SERVICE_STATUS, [plainMessage SERVICE_OPENED]⟩ (.value 7)).1.requestID
            = CorrelationId.unset
        ∧ sendRequestCalls (processEvent quietSession
          ⟨.SERVICE_STATUS, [plainMessage SERVICE_OPENED]⟩ (.value 7)).1.trace
            = [(groupRouteExRequest, CorrelationId.unset)]
        ∧ (processEvent quietSession
          ⟨.SERVICE_STATUS, [plainMessage SERVICE_OPENED]⟩ (.value 7)).2 = .ok true
        ∧ sendRequestCalls (processEvent quietSession
          ⟨.SERVICE_STATUS, [plainMessage SERVICE_OPENED]⟩ (.value 7)).1.trace
            = [(populatedRequest, CorrelationId.unset)])
      ∧ (sendRequestCalls (processEvent quietSession
          ⟨.SERVICE_STATUS, [plainMessage SERVICE_OPEN_FAILURE]⟩ (.value 7)).1.trace = []
        ∧ (processEvent quietSession
          ⟨.SERVICE_STATUS, [plainMessage SERVICE_OPEN_FAILURE]⟩ (.value 7)).2 = .ok false) :=
  ⟨(service_opened_sends_one_request quietSession (plainMessage SERVICE_OPENED)
      (.value 7)).1 rfl (by decide),
    (service_opened_sends_one_request quietSession (plainMessage SERVICE_OPEN_FAILURE)
      (.value 7)).2 rfl⟩

/-- C7: every request that `processEvent` passes to `sendRequest` for a ServiceStatus
event has twelve strategy field entries and twelve indicators, paired position
by position in insertion order: indicator 0 with "09:30:00", indicator 0 with
"10:30:00", then ten times indicator 1 with the empty placeholder; the indicator
is 0 exactly at the first two positions, and wherever it is 1 the data entry is
present and empty. -/
theorem strategy_fields_parallel (session : Session) (event : Event)
    (requestID : CorrelationId) (r : Request) (cid : CorrelationId)
    (hty : event.eventType = .SERVICE_STATUS)
    (hsent : (r, cid) ∈ sendRequestCalls (processEvent session event requestID).1.trace) :
    r.EMSX_STRATEGY_FIELDS.length = 12
      ∧ r.EMSX_STRATEGY_FIELD_INDICATORS.length = 12
      ∧ List.zip r.EMSX_STRATEGY_FIELD_INDICATORS r.EMSX_STRATEGY_FIELDS =
          [(0, "09:30:00"), (0, "10:30:00"), (1, ""), (1, ""), (1, ""), (1, ""),
            (1, ""), (1, ""), (1, ""), (1, ""), (1, ""), (1, "")]
      ∧ (∀ i, i < 12 → (r.EMSX_STRATEGY_FIELD_INDICATORS[i]? = some 0 ↔ i < 2))
      ∧ (∀ i, i < 12 → r.EMSX_STRATEGY_FIELD_INDICATORS[i]? = some 1 →
          r.EMSX_STRATEGY_FIELDS[i]? = some "") := by
  have hne : event.eventType ≠ .OTHER := by rw [hty]; decide
  have htr := processEvent_guarded_trace session event requestID hne
  have hcat : categoryHandler session event = processServiceEvent session event := by
    unfold categoryHandler; rw [hty]
  rw [hcat] at htr
  have hall : ∀ e ∈ (processEvent session event requestID).1.trace, SendsBuiltRequest e := by
    rw [htr]
    refine membership_all_append (membership_all_append ?_ ?_) ?_
    · unfold processServiceEvent
      refine messageLoop_sends (serviceBody_sends session) _ _ (consoleOut_sends _ _ ?_)
      intro e he
      rw [List.mem_singleton.1 he]
      intro _ _ hr
      cases hr
    · intro e he
      rw [List.mem_singleton.1 he]
      intro _ _ hr
      cases hr
    · cases raisedBy session event requestID with
      | none => intro e he; cases he
      | some ex =>
        exact consoleOut_sends ("Library Exception !!!" ++ ex.description ++ "\n") ⟨[], .unset⟩
          (fun e he => by cases he)
  obtain ⟨hr, _⟩ := hall _ (mem_sendRequestCalls hsent) r cid rfl
  subst hr
  decide

/-- Witness for C7: the request sent for one `ServiceOpened` message. -/
theorem strategy_fields_parallel_witness :
    groupRouteExRequest.EMSX_STRATEGY_FIELDS.length = 12
      ∧ groupRouteExRequest.EMSX_STRATEGY_FIELD_INDICATORS.length = 12
      ∧ List.zip groupRouteExRequest.EMSX_STRATEGY_FIELD_INDICATORS
          groupRouteExRequest.EMSX_STRATEGY_FIELDS =
          [(0, "09:30:00"), (0, "10:30:00"), (1, ""), (1, ""), (1, ""), (1, ""),
            (1, ""), (1, ""), (1, ""), (1, ""), (1, ""), (1, "")]
      ∧ (∀ i, i < 12 → (groupRouteExRequest.EMSX_STRATEGY_FIELD_INDICATORS[i]? = some 0 ↔ i < 2))
      ∧ (∀ i, i < 12 → groupRouteExRequest.EMSX_STRATEGY_FIELD_INDICATORS[i]? = some 1 →
          groupRouteExRequest.EMSX_STRATEGY_FIELDS[i]? = some "") :=
  strategy_fields_parallel quietSession ⟨.SERVICE_STATUS, [plainMessage SERVICE_OPENED]⟩
    (.value 7) groupRouteExRequest .unset rfl (by decide)

end EMSX
